import Mathlib

/-!
Verification development for the gateway ColorLight widget
(src/static/js/color-light.js).

The file shallowly embeds the widget's logic:
* JavaScript values reaching the widget are modelled by `JSVal`
  (rationals for finite numbers, a separate `nan` constructor for NaN;
  the infinities are not modelled, and no code path exercised below
  produces them).
* The color-temperature conversion `colorTemperatureToRGB` works on
  `Option ℝ` (with `none` playing the role of NaN) so that the
  transcendental formulas of the source are kept exactly.
* The widget's DOM-visible state (label text, background, icon fill,
  the bright-color class, the on/off visual state) is a `WidgetState`
  record, and each update handler of the source becomes a state
  transformer.
-/

/-- A JavaScript value as it reaches the widget's handlers.  Finite
numbers are rationals (every IEEE double is rational); `nan` models NaN. -/
inductive JSVal where
  | null
  | undefined
  | bool (b : Bool)
  | num (q : ℚ)
  | nan
  | str (s : String)
deriving DecidableEq, Repr

/-- JavaScript truthiness: null, undefined, false, 0, NaN and the empty
string are falsy, everything else modelled here is truthy. -/
def truthy : JSVal → Bool
  | JSVal.null => false
  | JSVal.undefined => false
  | JSVal.bool b => b
  | JSVal.num q => decide (q ≠ 0)
  | JSVal.nan => false
  | JSVal.str s => decide (s ≠ "")

/-- Numeric value of a decimal digit character. -/
def digitVal (c : Char) : ℕ := c.toNat - 48

/-- Accumulate a list of decimal digit characters into a natural number. -/
def decDigitsToNat (l : List Char) : ℕ :=
  l.foldl (fun a c => a * 10 + digitVal c) 0

/-- JavaScript parseInt(s, 10): skip leading whitespace, read an optional
sign, then the longest prefix of decimal digits; NaN when there are none. -/
def jsParseInt10 (s : String) : JSVal :=
  let cs := s.data.dropWhile (fun c => c.isWhitespace)
  let signAndRest : Bool × List Char :=
    match cs with
    | '-' :: rest => (true, rest)
    | '+' :: rest => (false, rest)
    | rest => (false, rest)
  let digits := signAndRest.2.takeWhile (fun c => c.isDigit)
  if digits.isEmpty then JSVal.nan
  else
    JSVal.num
      (if signAndRest.1 then -((decDigitsToNat digits : ℚ))
       else ((decDigitsToNat digits : ℚ)))

/-- Hexadecimal digit characters, either case (as parseInt(_, 16) accepts). -/
def isHexDigitChar (c : Char) : Bool :=
  c.isDigit || ('a' ≤ c && c ≤ 'f') || ('A' ≤ c && c ≤ 'F')

/-- Numeric value of a hexadecimal digit character (callers filter with
`isHexDigitChar`). -/
def hexDigitVal (c : Char) : ℕ :=
  if c.isDigit then c.toNat - 48
  else if 'a' ≤ c && c ≤ 'f' then c.toNat - 87
  else c.toNat - 55

/-- Accumulate hexadecimal digit characters into a natural number. -/
def hexDigitsToNat (l : List Char) : ℕ :=
  l.foldl (fun a c => a * 16 + hexDigitVal c) 0

/-- JavaScript parseInt(s, 16): skip whitespace, optional sign, optional
0x / 0X prefix, then the longest prefix of hex digits; `none` is NaN. -/
def jsParseInt16 (s : String) : Option ℚ :=
  let cs := s.data.dropWhile (fun c => c.isWhitespace)
  let signAndRest : Bool × List Char :=
    match cs with
    | '-' :: rest => (true, rest)
    | '+' :: rest => (false, rest)
    | rest => (false, rest)
  let afterPrefix : List Char :=
    match signAndRest.2 with
    | '0' :: 'x' :: rest => rest
    | '0' :: 'X' :: rest => rest
    | rest => rest
  let digits := afterPrefix.takeWhile isHexDigitChar
  if digits.isEmpty then none
  else
    some
      (if signAndRest.1 then -((hexDigitsToNat digits : ℚ))
       else ((hexDigitsToNat digits : ℚ)))

/-- JavaScript String.prototype.substr(start, len) for non-negative
arguments. -/
def jsSubstr (s : String) (start len : ℕ) : String :=
  String.mk ((s.data.drop start).take len)

/-- The character for a single hex digit value below 16, lowercase, as
Number.prototype.toString(16) produces. -/
def hexDigitChar (n : ℕ) : Char :=
  if n < 10 then Char.ofNat (48 + n) else Char.ofNat (87 + n)

/-- Digits of n in base 16, most significant first.  The first argument is
fuel; `natToHex` passes n itself, which is enough since n / 16 < n. -/
def natToHexCore : ℕ → ℕ → List Char
  | 0, _ => []
  | _, 0 => []
  | fuel + 1, n + 1 =>
      natToHexCore fuel ((n + 1) / 16) ++ [hexDigitChar ((n + 1) % 16)]

/-- Number.prototype.toString(16) for a natural number: lowercase hex
digits, no padding, and the single digit 0 for zero. -/
def natToHex (n : ℕ) : String :=
  if n = 0 then "0" else String.mk (natToHexCore n n)

/-- Number.prototype.toString(16) for a rounded channel (an integer;
`none` is NaN, which stringifies as NaN in JavaScript). -/
def jsHexString : Option ℤ → String
  | none => "NaN"
  | some n => if n < 0 then "-" ++ natToHex n.natAbs else natToHex n.toNat

/-- Math.round: half-up rounding, as floor(x + 1/2); NaN propagates. -/
noncomputable def jsRound : Option ℝ → Option ℤ
  | none => none
  | some x => some ⌊x + 1 / 2⌋

/-- JavaScript division of finite numbers.  Division by zero yields an
infinity in JavaScript, which is outside this model and mapped to `none`;
the only divisor used by the source is the constant 100. -/
noncomputable def jsDiv : Option ℝ → Option ℝ → Option ℝ
  | some x, some y => if y = 0 then none else some (x / y)
  | _, _ => none

/-- Parse a decimal number string for ToNumber coercion (sign, digits,
optional fraction).  This covers the numeric strings the widget can cache;
exponent and hex literal forms of JavaScript are not modelled. -/
def decNumberOfChars (cs : List Char) : Option ℚ :=
  let signAndRest : Bool × List Char :=
    match cs with
    | '-' :: rest => (true, rest)
    | '+' :: rest => (false, rest)
    | rest => (false, rest)
  let intPart := signAndRest.2.takeWhile (fun c => c.isDigit)
  let rest := signAndRest.2.dropWhile (fun c => c.isDigit)
  let fracAndTail : List Char × List Char :=
    match rest with
    | '.' :: tail => (tail.takeWhile (fun c => c.isDigit),
                      tail.dropWhile (fun c => c.isDigit))
    | tail => ([], tail)
  if intPart.isEmpty && fracAndTail.1.isEmpty then none
  else if fracAndTail.2.isEmpty = false then none
  else
    let mag : ℚ := (decDigitsToNat intPart : ℚ) +
      (decDigitsToNat fracAndTail.1 : ℚ) / ((10 : ℚ) ^ fracAndTail.1.length)
    some (if signAndRest.1 then -mag else mag)

/-- JavaScript ToNumber on a whole string: surrounding whitespace is
ignored and the empty string converts to 0. -/
def jsStringToNumber (s : String) : Option ℚ :=
  let cs := (s.data.dropWhile (fun c => c.isWhitespace)).reverse
  let trimmed := (cs.dropWhile (fun c => c.isWhitespace)).reverse
  if trimmed.isEmpty then some 0 else decNumberOfChars trimmed

/-- JavaScript ToNumber of a widget value, as a real (with `none` for
NaN), the coercion applied by arithmetic such as temperature /= 100. -/
noncomputable def jsToNumber : JSVal → Option ℝ
  | JSVal.null => some 0
  | JSVal.undefined => none
  | JSVal.bool b => some (if b then 1 else 0)
  | JSVal.num q => some ((q : ℝ))
  | JSVal.nan => none
  | JSVal.str s => (jsStringToNumber s).map (fun q => ((q : ℝ)))

/-- Red channel of the Tanner Helland approximation, on the already
scaled temperature t.  NaN t takes the else branch of the source and
propagates, so it is matched to `none` directly. -/
noncomputable def ctRed : Option ℝ → Option ℝ
  | none => none
  | some t =>
      if t ≤ 66 then some 255
      else
        some (min (max (329.698727446 * (t - 60) ^ (-0.1332047592 : ℝ)) 0) 255)

/-- Green channel.  The inner positivity guard models Math.log being
NaN outside (0, ∞); Math.log 0 is negative infinity in JavaScript, which
this model conflates with NaN — no claim evaluates the function at a
scaled temperature at or below 0. -/
noncomputable def ctGreen : Option ℝ → Option ℝ
  | none => none
  | some t =>
      let g : Option ℝ :=
        if t ≤ 66 then
          if 0 < t then some (99.4708025861 * Real.log t - 161.1195681661)
          else none
        else some (288.1221695283 * (t - 60) ^ (-0.0755148492 : ℝ))
      g.map (fun x => min (max x 0) 255)

/-- Blue channel.  In the third branch 19 < t, so the Math.log argument
t - 10 is strictly positive and no domain guard is needed. -/
noncomputable def ctBlue : Option ℝ → Option ℝ
  | none => none
  | some t =>
      if 66 ≤ t then some 255
      else if t ≤ 19 then some 0
      else
        some (min (max (138.5177312231 * Real.log (t - 10) - 305.0447927307) 0)
          255)

/-- colorTemperatureToRGB of the source: scale the Kelvin input by 100
(the /= applies ToNumber first), compute the three channels, round each
and concatenate their unpadded lowercase hex forms after a # sign. -/
noncomputable def colorTemperatureToRGB (temperature : JSVal) : String :=
  let t := jsDiv (jsToNumber temperature) (some 100)
  "#" ++ jsHexString (jsRound (ctRed t)) ++ jsHexString (jsRound (ctGreen t)) ++
    jsHexString (jsRound (ctBlue t))

/-- The widget state visible to this model: the property cache
(this.properties, an `Option` field per key models hasOwnProperty), the
capability registrations made by the constructor (displayedProperties),
whether the DOM elements exist (this.colorLight is only set for non-svg
formats), the format string, and the DOM-reflected outputs. -/
structure WidgetState where
  propOn : Option JSVal
  propColor : Option JSVal
  propColorTemp : Option JSVal
  hasColorCapability : Bool
  hasColorTempCapability : Bool
  hasDom : Bool
  format : String
  labelText : String
  background : String
  onVisual : Bool
  iconFill : JSVal
  brightClass : Bool

/-- Modelled from the spec: the per-property detail collaborators
(OnOffDetail, ColorDetail, ColorTemperatureDetail — not under src/) are
external renderers whose update() reads the shared cache and mutates no
state modelled here. -/
def detailUpdate (s : WidgetState) : WidgetState := s

/-- Modelled from the spec: showOn of the base OnOffSwitch (not under
src/) toggles the on visual state of the widget. -/
def showOn (s : WidgetState) : WidgetState := { s with onVisual := true }

/-- Modelled from the spec: showOff of the base OnOffSwitch (not under
src/) toggles the off visual state of the widget. -/
def showOff (s : WidgetState) : WidgetState := { s with onVisual := false }

/-- getIconColor of the source: the cached color if the cache has a color
key, else the conversion of the cached colorTemperature, else white. -/
noncomputable def getIconColor (s : WidgetState) : JSVal :=
  match s.propColor with
  | some c => c
  | none =>
      match s.propColorTemp with
      | some v => JSVal.str (colorTemperatureToRGB v)
      | none => JSVal.str ("#ffffff")

/-- Number of binary digits of a natural number.  The first argument is
fuel; `natBitCount` passes n itself, which is enough since n / 2 < n. -/
def natBits : ℕ → ℕ → ℕ
  | 0, _ => 0
  | _, 0 => 0
  | fuel + 1, n + 1 => natBits fuel ((n + 1) / 2) + 1

/-- Number of binary digits of a natural number (0 for 0). -/
def natBitCount (n : ℕ) : ℕ := natBits n n

/-- Floor of the base-2 logarithm of a / b, for positive naturals: the
bit-count difference k leaves two candidates, separated by comparing
a / b against 2 ^ k in integers. -/
def floorLog2Rat (a b : ℕ) : ℤ :=
  let k : ℤ := (natBitCount a : ℤ) - (natBitCount b : ℤ)
  if 0 ≤ k then (if b * 2 ^ k.toNat ≤ a then k else k - 1)
  else (if b ≤ a * 2 ^ (-k).toNat then k else k - 1)

/-- A finite IEEE-754 binary64 value, as an integer significand times a
power of two.  The JavaScript numbers of the luminance computation are
embedded here so that each operation rounds exactly as the program does
(subnormal and overflowing magnitudes are outside the model; no value of
the widget's luminance computation reaches them). -/
structure FP where
  m : ℤ
  e : ℤ
deriving DecidableEq, Repr

/-- Round a / b (positive) to 53 significand bits, nearest, ties to
even: the returned pair is the significand in [2^52, 2^53] and the
exponent of its unit. -/
def fpOfRatAux (a b : ℕ) : ℕ × ℤ :=
  let e := floorLog2Rat a b
  let t : ℤ := 52 - e
  let A := a * 2 ^ t.toNat
  let B := b * 2 ^ (-t).toNat
  let n0 := A / B
  let r := A % B
  let n := if 2 * r < B then n0
    else if B < 2 * r then n0 + 1
    else if n0 % 2 = 0 then n0 else n0 + 1
  (n, e - 52)

/-- The double nearest to the ratio a / b — in particular the value a
decimal literal such as 0.299 (= 299 / 1000) denotes in the source. -/
def fpOfRatio (a b : ℕ) : FP :=
  if a = 0 ∨ b = 0 then ⟨0, 0⟩
  else ⟨((fpOfRatAux a b).1 : ℤ), (fpOfRatAux a b).2⟩

/-- The double nearest to a rational channel value (integers beyond
2^53, which parseInt can produce, round like the number it returns). -/
def fpOfRat (q : ℚ) : FP :=
  if q.num < 0 then
    ⟨-(((fpOfRatAux q.num.natAbs q.den).1 : ℤ)),
      (fpOfRatAux q.num.natAbs q.den).2⟩
  else fpOfRatio q.num.natAbs q.den

/-- Round an exact product or sum m·2^e back to the 53 significand bits
of binary64, nearest, ties to even. -/
def fpNormalize (m : ℤ) (e : ℤ) : FP :=
  if m = 0 then ⟨0, 0⟩
  else
    let n := m.natAbs
    let bits := natBitCount n
    if bits ≤ 53 then ⟨m, e⟩
    else
      let k := bits - 53
      let q := n / 2 ^ k
      let r := n % 2 ^ k
      let half := 2 ^ (k - 1)
      let n2 := if r < half then q
        else if half < r then q + 1
        else if q % 2 = 0 then q else q + 1
      ⟨if m < 0 then -(n2 : ℤ) else (n2 : ℤ), e + (k : ℤ)⟩

/-- binary64 multiplication: the exact product, rounded once. -/
def fpMul (x y : FP) : FP := fpNormalize (x.m * y.m) (x.e + y.e)

/-- binary64 addition: the exact sum, rounded once. -/
def fpAdd (x y : FP) : FP :=
  let e := min x.e y.e
  fpNormalize (x.m * 2 ^ (x.e - e).toNat + y.m * 2 ^ (y.e - e).toNat) e

/-- Exact comparison of a double against an integer threshold (the 186
of the source is itself an exact double, and comparison of doubles is
exact). -/
def fpGtInt (x : FP) (k : ℤ) : Bool :=
  if 0 ≤ x.e then decide (k < x.m * 2 ^ x.e.toNat)
  else decide (k * 2 ^ (-x.e).toNat < x.m)

/-- The luminance r * 0.299 + g * 0.587 + b * 0.114 of the source,
computed as JavaScript computes it: each decimal literal is the nearest
double, and the left-associated products and sums each round once. -/
def doubleLuminance (r g b : ℚ) : FP :=
  fpAdd
    (fpAdd (fpMul (fpOfRat r) (fpOfRatio 299 1000))
      (fpMul (fpOfRat g) (fpOfRatio 587 1000)))
    (fpMul (fpOfRat b) (fpOfRatio 114 1000))

/-- Luminance comparison of updateIcon, in the binary64 arithmetic the
program uses, with NaN channels making the comparison false, as in
JavaScript. -/
def lumGt186 (r g b : Option ℚ) : Bool :=
  match r, g, b with
  | some r, some g, some b => fpGtInt (doubleLuminance r g b) 186
  | _, _, _ => false

/-- updateIcon of the source: assign the icon fill, parse the three
channel substrings and set the bright-color class by the luminance
threshold.  When the icon color is not a string, JavaScript throws a
TypeError at .substr after the fill assignment, leaving the class
unchanged; the thrown exception itself is not modelled. -/
noncomputable def updateIcon (s : WidgetState) : WidgetState :=
  match getIconColor s with
  | JSVal.str iconColor =>
      let r := jsParseInt16 (jsSubstr iconColor 1 2)
      let g := jsParseInt16 (jsSubstr iconColor 3 2)
      let b := jsParseInt16 (jsSubstr iconColor 5 2)
      { s with iconFill := JSVal.str iconColor, brightClass := lumGt186 r g b }
  | v => { s with iconFill := v }

/-- updateOn of the source: cache the value, return at null, otherwise
reflect the label, the detail view, the background (the constant white
when truthy) and the on/off visual state. -/
def updateOn (s : WidgetState) (onVal : JSVal) : WidgetState :=
  let s1 := { s with propOn := some onVal }
  if onVal = JSVal.null then s1
  else
    let s2 := { s1 with labelText := if truthy onVal then "on" else "off" }
    let s3 := if s2.format = "htmlDetail" then detailUpdate s2 else s2
    let s4 := { s3 with background := if truthy onVal then "white" else "" }
    if truthy onVal then showOn s4 else showOff s4

/-- updateColor of the source: return on a falsy value, cache, return if
the DOM elements are absent, update the detail view and the icon. -/
noncomputable def updateColor (s : WidgetState) (color : JSVal) : WidgetState :=
  if truthy color = false then s
  else
    let s1 := { s with propColor := some color }
    if s1.hasDom = false then s1
    else
      let s2 := if s1.format = "htmlDetail" then detailUpdate s1 else s1
      updateIcon s2

/-- The string-to-integer normalization applied by both
updateColorTemperature and setColorTemperature before using the value. -/
def parseIntIfString : JSVal → JSVal
  | JSVal.str s => jsParseInt10 s
  | v => v

/-- updateColorTemperature of the source: parse a string value as a
base-10 integer, cache unconditionally, return if the DOM elements are
absent, update the detail view and the icon. -/
noncomputable def updateColorTemperature (s : WidgetState) (temperature : JSVal) :
    WidgetState :=
  let t := parseIntIfString temperature
  let s1 := { s with propColorTemp := some t }
  if s1.hasDom = false then s1
  else
    let s2 := if s1.format = "htmlDetail" then detailUpdate s1 else s1
    updateIcon s2

/-- updateProperty of the source: dispatch on the property name; other
names fall through every branch and change nothing. -/
noncomputable def updateProperty (s : WidgetState) (name : String) (value : JSVal) :
    WidgetState :=
  let s1 := if name = "on" then updateOn s value else s
  let s2 := if name = "color" then updateColor s1 value else s1
  if name = "colorTemperature" then updateColorTemperature s2 value else s2

/-- The JSON response body of a fetch, as a string-keyed object. -/
def JsonBody := List (String × JSVal)

/-- Reading a key from a JSON response object; a missing key is
undefined in JavaScript. -/
def jsonGet (body : JsonBody) (k : String) : JSVal :=
  match body.lookup k with
  | some v => v
  | none => JSVal.undefined

/-- The outcome of the fetch started by a set operation: a response with
a status and parsed JSON body, or a transport-level failure. -/
inductive FetchOutcome where
  | response (status : ℕ) (body : JsonBody)
  | failure (message : String)

/-- setColor of the source, as a function of the eventual fetch outcome.
The first component is the outbound JSON payload; the second is the
widget state after the response handlers ran, and the third the console
error log they produced.  The status check, the error construction and
the catch-all logging mirror the promise chain of the source; the model
is a total function, reflecting that the catch leaves no exception for
the caller. -/
noncomputable def setColor (s : WidgetState) (color : JSVal)
    (outcome : FetchOutcome) : JsonBody × WidgetState × List String :=
  ([("color", color)],
    match outcome with
    | FetchOutcome.response status body =>
        if status = 200 then (updateColor s (jsonGet body ("color")), [])
        else
          (s, ["Error trying to set color: Error: Status " ++ toString status ++
            " trying to set color"])
    | FetchOutcome.failure message =>
        (s, ["Error trying to set color: " ++ message]))

/-- setColorTemperature of the source, as a function of the eventual
fetch outcome, in the same shape as setColor: the string form of the
input is parsed as a base-10 integer before the payload is built. -/
noncomputable def setColorTemperature (s : WidgetState) (temperature : JSVal)
    (outcome : FetchOutcome) : JsonBody × WidgetState × List String :=
  let t := parseIntIfString temperature
  ([("colorTemperature", t)],
    match outcome with
    | FetchOutcome.response status body =>
        if status = 200 then
          (updateColorTemperature s (jsonGet body ("colorTemperature")), [])
        else
          (s, ["Error trying to set color temperature: Error: Status " ++
            toString status ++ " trying to set color temperature"])
    | FetchOutcome.failure message =>
        (s, ["Error trying to set color temperature: " ++ message]))

/-- Lowercase hexadecimal digit characters, the alphabet of the
conversion's output after the # sign. -/
def isLowerHexDigit (c : Char) : Bool :=
  c.isDigit || ('a' ≤ c && c ≤ 'f')

lemma clamp255_nonneg (x : ℝ) : 0 ≤ min (max x 0) 255 :=
  le_min (le_max_right x 0) (by norm_num)

lemma clamp255_le (x : ℝ) : min (max x 0) 255 ≤ 255 :=
  min_le_right _ _

lemma floor_half_add_eq (x : ℝ) (h0 : 0 ≤ x) (h1 : x ≤ 255) :
    0 ≤ ⌊x + 1 / 2⌋ ∧ ⌊x + 1 / 2⌋ ≤ 255 := by
  constructor
  · exact Int.le_floor.mpr (by push_cast; linarith)
  · have : ⌊x + 1 / 2⌋ < 256 := Int.floor_lt.mpr (by push_cast; linarith)
    omega

set_option maxRecDepth 4000 in
lemma natToHex_le255 :
    ∀ m : ℕ, m ≤ 255 → 1 ≤ (natToHex m).length ∧ (natToHex m).length ≤ 2 ∧
      (natToHex m).data.all isLowerHexDigit = true := by decide

lemma jsHexString_of_channel (n : ℤ) (h0 : 0 ≤ n) (h1 : n ≤ 255) :
    1 ≤ (jsHexString (some n)).length ∧ (jsHexString (some n)).length ≤ 2 ∧
      (jsHexString (some n)).data.all isLowerHexDigit = true := by
  have hn : ¬ n < 0 := by omega
  have hle : n.toNat ≤ 255 := by omega
  simpa [jsHexString, hn] using natToHex_le255 n.toNat hle

lemma jsRound_some_of_clamped (x : ℝ) (h0 : 0 ≤ x) (h1 : x ≤ 255) :
    ∃ n : ℤ, jsRound (some x) = some n ∧ 0 ≤ n ∧ n ≤ 255 := by
  refine ⟨⌊x + 1 / 2⌋, rfl, ?_, ?_⟩
  · exact (floor_half_add_eq x h0 h1).1
  · exact (floor_half_add_eq x h0 h1).2

lemma ctRed_mem (t : ℝ) : ∃ x : ℝ, ctRed (some t) = some x ∧ 0 ≤ x ∧ x ≤ 255 := by
  by_cases h : t ≤ 66
  · exact ⟨255, by simp [ctRed, h], by norm_num, by norm_num⟩
  · refine ⟨min (max (329.698727446 * (t - 60) ^ (-0.1332047592 : ℝ)) 0) 255,
      by simp [ctRed, h], clamp255_nonneg _, clamp255_le _⟩

lemma ctGreen_mem (t : ℝ) (ht : 0 < t) :
    ∃ x : ℝ, ctGreen (some t) = some x ∧ 0 ≤ x ∧ x ≤ 255 := by
  by_cases h : t ≤ 66
  · refine ⟨min (max (99.4708025861 * Real.log t - 161.1195681661) 0) 255,
      by simp [ctGreen, h, ht], clamp255_nonneg _, clamp255_le _⟩
  · refine ⟨min (max (288.1221695283 * (t - 60) ^ (-0.0755148492 : ℝ)) 0) 255,
      by simp [ctGreen, h], clamp255_nonneg _, clamp255_le _⟩

lemma ctBlue_mem (t : ℝ) : ∃ x : ℝ, ctBlue (some t) = some x ∧ 0 ≤ x ∧ x ≤ 255 := by
  by_cases h : 66 ≤ t
  · exact ⟨255, by simp [ctBlue, h], by norm_num, by norm_num⟩
  · by_cases h2 : t ≤ 19
    · exact ⟨0, by simp [ctBlue, h, h2], by norm_num, by norm_num⟩
    · refine ⟨min
        (max (138.5177312231 * Real.log (t - 10) - 305.0447927307) 0) 255,
        by simp [ctBlue, h, h2], clamp255_nonneg _, clamp255_le _⟩

lemma channel_hex (v : Option ℝ) (x : ℝ) (hv : v = some x) (h0 : 0 ≤ x)
    (h1 : x ≤ 255) :
    ∃ n : ℤ, jsRound v = some n ∧ 0 ≤ n ∧ n ≤ 255 ∧
      1 ≤ (jsHexString (jsRound v)).length ∧
      (jsHexString (jsRound v)).length ≤ 2 ∧
      (jsHexString (jsRound v)).data.all isLowerHexDigit = true := by
  subst hv
  obtain ⟨n, hn, hn0, hn1⟩ := jsRound_some_of_clamped x h0 h1
  refine ⟨n, hn, hn0, hn1, ?_⟩
  rw [hn]
  exact jsHexString_of_channel n hn0 hn1

lemma string_head_of_hash (a b c : String) :
    ("#" ++ a ++ b ++ c).data = '#' :: (a.data ++ b.data ++ c.data) := by
  simp [String.data_append]

lemma colorTemperatureToRGB_data (v : JSVal) :
    (colorTemperatureToRGB v).data =
      '#' :: ((jsHexString (jsRound (ctRed (jsDiv (jsToNumber v) (some 100))))).data ++
        (jsHexString (jsRound (ctGreen (jsDiv (jsToNumber v) (some 100))))).data ++
        (jsHexString (jsRound (ctBlue (jsDiv (jsToNumber v) (some 100))))).data) := by
  rw [colorTemperatureToRGB]
  exact string_head_of_hash _ _ _

lemma updateIcon_of_str (s : WidgetState) (c : String)
    (h : getIconColor s = JSVal.str c) :
    updateIcon s = { s with
      iconFill := JSVal.str c
      brightClass := lumGt186 (jsParseInt16 (jsSubstr c 1 2))
        (jsParseInt16 (jsSubstr c 3 2)) (jsParseInt16 (jsSubstr c 5 2)) } := by
  rw [updateIcon, h]

lemma updateIcon_preserves_props (s : WidgetState) :
    (updateIcon s).propOn = s.propOn ∧ (updateIcon s).propColor = s.propColor ∧
      (updateIcon s).propColorTemp = s.propColorTemp ∧
      (updateIcon s).hasDom = s.hasDom := by
  rw [updateIcon]
  cases h : getIconColor s <;> simp

lemma log_66_eq : Real.log 66 = 6 * Real.log 2 + Real.log (33 / 32) := by
  have h : (66 : ℝ) = 2 ^ 6 * (33 / 32) := by norm_num
  rw [h, Real.log_mul (by norm_num) (by norm_num), Real.log_pow]
  norm_num

lemma log_ratio_lb : (1 / 33 : ℝ) ≤ Real.log (33 / 32) := by
  have h := Real.log_le_sub_one_of_pos (show (0 : ℝ) < 32 / 33 by norm_num)
  have hinv : Real.log (33 / 32 : ℝ) = -Real.log (32 / 33) := by
    rw [← Real.log_inv]
    norm_num
  rw [hinv]
  linarith

lemma log_ratio_ub : Real.log (33 / 32 : ℝ) ≤ 1 / 32 := by
  have h := Real.log_le_sub_one_of_pos (show (0 : ℝ) < 33 / 32 by norm_num)
  linarith

lemma log_66_bounds : (4.1834 : ℝ) ≤ Real.log 66 ∧ Real.log 66 ≤ 4.1902 := by
  have h2l := Real.log_two_gt_d9
  have h2u := Real.log_two_lt_d9
  have hl := log_ratio_lb
  have hu := log_ratio_ub
  rw [log_66_eq]
  constructor <;> linarith

lemma green_seam_bounds :
    (255 : ℝ) ≤ 99.4708025861 * Real.log 66 - 161.1195681661 ∧
      99.4708025861 * Real.log 66 - 161.1195681661 ≤ 256 := by
  obtain ⟨hl, hu⟩ := log_66_bounds
  constructor <;> linarith

lemma jsRound_255 : jsRound (some (255 : ℝ)) = some 255 := by
  simp only [jsRound]
  rw [show (255 : ℝ) + 1 / 2 = (1 / 2 : ℝ) + ((255 : ℤ) : ℝ) by push_cast; ring]
  rw [Int.floor_add_int]
  norm_num

lemma jsRound_zero : jsRound (some (0 : ℝ)) = some 0 := by
  simp only [jsRound]
  norm_num

lemma jsHexString_255 : jsHexString (some 255) = "ff" := by decide

lemma jsHexString_zero : jsHexString (some 0) = "0" := by decide

/-- C7: at 6600 Kelvin (scaled temperature 66) the red and blue channels
are the constant 255 and the pre-clamp green value
99.4708025861 * ln 66 − 161.1195681661 lies between 255 and 256, so the
clamp makes the rounded green channel 255 as well and the output is the
string #ffffff. -/
theorem colorTemperatureToRGB_at_6600 :
    255 ≤ 99.4708025861 * Real.log 66 - 161.1195681661 ∧
      99.4708025861 * Real.log 66 - 161.1195681661 ≤ 256 ∧
      colorTemperatureToRGB (JSVal.num 6600) = "#ffffff" := by
  refine ⟨green_seam_bounds.1, green_seam_bounds.2, ?_⟩
  have ht : jsDiv (jsToNumber (JSVal.num 6600)) (some 100) = some 66 := by
    show jsDiv (some ((6600 : ℚ) : ℝ)) (some 100) = some 66
    simp only [jsDiv]
    rw [if_neg (by norm_num : ¬ (100 : ℝ) = 0)]
    congr 1
    push_cast
    norm_num
  have hr : ctRed (some (66 : ℝ)) = some 255 := by
    simp [ctRed]
  have hb : ctBlue (some (66 : ℝ)) = some 255 := by
    simp [ctBlue]
  have hg : ctGreen (some (66 : ℝ)) = some 255 := by
    have h255 := green_seam_bounds.1
    have h1 : (66 : ℝ) ≤ 66 := le_refl _
    have h2 : (0 : ℝ) < 66 := by norm_num
    simp only [ctGreen, if_pos h1, if_pos h2, Option.map_some']
    congr 1
    rw [max_eq_left (by linarith), min_eq_right (by linarith)]
  simp only [colorTemperatureToRGB]
  rw [ht, hr, hg, hb, jsRound_255, jsHexString_255]
  decide

lemma jsDiv_num (q : ℚ) :
    jsDiv (jsToNumber (JSVal.num q)) (some 100) = some ((q : ℝ) / 100) := by
  show jsDiv (some ((q : ℚ) : ℝ)) (some 100) = some ((q : ℝ) / 100)
  simp only [jsDiv]
  rw [if_neg (by norm_num : ¬ (100 : ℝ) = 0)]

/-- C2: the hex formatter does not zero-pad.  For every positive Kelvin
input at most 1900 the scaled temperature is at most 19, so the blue
channel is the constant 0 and formats as the single digit 0; with red
formatting as ff and green at most two digits, the whole output has at
most 6 characters — fewer than the 7 of a well-formed #rrggbb string. -/
theorem colorTemperatureToRGB_not_padded (q : ℚ) (h0 : 0 < q) (h1 : q ≤ 1900) :
    jsHexString (jsRound (ctBlue (jsDiv (jsToNumber (JSVal.num q)) (some 100)))) =
      "0" ∧
      (colorTemperatureToRGB (JSVal.num q)).length < 7 := by
  have hq0 : (0 : ℝ) < (q : ℝ) := by exact_mod_cast h0
  have hq1 : (q : ℝ) ≤ 1900 := by exact_mod_cast h1
  have ht0 : (0 : ℝ) < (q : ℝ) / 100 := by positivity
  have ht19 : (q : ℝ) / 100 ≤ 19 := by
    rw [div_le_iff₀ (by norm_num : (0 : ℝ) < 100)]
    linarith
  have hblue : ctBlue (some ((q : ℝ) / 100)) = some 0 := by
    simp only [ctBlue, if_neg (by linarith : ¬ (66 : ℝ) ≤ (q : ℝ) / 100),
      if_pos ht19]
  have hred : ctRed (some ((q : ℝ) / 100)) = some 255 := by
    simp only [ctRed, if_pos (by linarith : (q : ℝ) / 100 ≤ 66)]
  obtain ⟨g, hg, hg0, hg255⟩ := ctGreen_mem ((q : ℝ) / 100) ht0
  obtain ⟨gn, hgn, hgn0, hgn1, hgl1, hgl2, hghex⟩ :=
    channel_hex (ctGreen (some ((q : ℝ) / 100))) g hg hg0 hg255
  constructor
  · rw [jsDiv_num, hblue, jsRound_zero, jsHexString_zero]
  · simp only [colorTemperatureToRGB]
    rw [jsDiv_num, hred, hblue, jsRound_255, jsRound_zero, jsHexString_255,
      jsHexString_zero]
    rw [String.length_append, String.length_append, String.length_append]
    have h2 : ("ff" : String).length = 2 := rfl
    have hh : ("#" : String).length = 1 := rfl
    have h0len : ("0" : String).length = 1 := rfl
    omega

/-- C2 witness: the theorem applied at 1000 Kelvin. -/
theorem colorTemperatureToRGB_not_padded_witness :
    (0 : ℚ) < 1000 ∧ (1000 : ℚ) ≤ 1900 ∧
      (jsHexString
          (jsRound (ctBlue (jsDiv (jsToNumber (JSVal.num 1000)) (some 100)))) =
          "0" ∧
        (colorTemperatureToRGB (JSVal.num 1000)).length < 7) :=
  ⟨by norm_num, by norm_num,
    colorTemperatureToRGB_not_padded 1000 (by norm_num) (by norm_num)⟩

/-- C4: for every Kelvin input in the range 1000 to 40000 the rounded
channels all lie in 0..255 and the output string is a # sign followed by
between one and six (in fact between three and six) lowercase hex digits. -/
theorem colorTemperatureToRGB_wellformed (q : ℚ) (h0 : 1000 ≤ q)
    (h1 : q ≤ 40000) :
    ∃ (rn gn bn : ℤ) (ds : List Char),
      jsRound (ctRed (jsDiv (jsToNumber (JSVal.num q)) (some 100))) = some rn ∧
      0 ≤ rn ∧ rn ≤ 255 ∧
      jsRound (ctGreen (jsDiv (jsToNumber (JSVal.num q)) (some 100))) = some gn ∧
      0 ≤ gn ∧ gn ≤ 255 ∧
      jsRound (ctBlue (jsDiv (jsToNumber (JSVal.num q)) (some 100))) = some bn ∧
      0 ≤ bn ∧ bn ≤ 255 ∧
      (colorTemperatureToRGB (JSVal.num q)).data = '#' :: ds ∧
      1 ≤ ds.length ∧ ds.length ≤ 6 ∧ ds.all isLowerHexDigit = true := by
  have hq0 : (1000 : ℝ) ≤ (q : ℝ) := by exact_mod_cast h0
  have ht0 : (0 : ℝ) < (q : ℝ) / 100 := by positivity
  obtain ⟨r, hr, hr0, hr255⟩ := ctRed_mem ((q : ℝ) / 100)
  obtain ⟨g, hg, hg0, hg255⟩ := ctGreen_mem ((q : ℝ) / 100) ht0
  obtain ⟨b, hb, hb0, hb255⟩ := ctBlue_mem ((q : ℝ) / 100)
  obtain ⟨rn, hrn, hrn0, hrn1, hrl1, hrl2, hrhex⟩ :=
    channel_hex (ctRed (some ((q : ℝ) / 100))) r hr hr0 hr255
  obtain ⟨gn, hgn, hgn0, hgn1, hgl1, hgl2, hghex⟩ :=
    channel_hex (ctGreen (some ((q : ℝ) / 100))) g hg hg0 hg255
  obtain ⟨bn, hbn, hbn0, hbn1, hbl1, hbl2, hbhex⟩ :=
    channel_hex (ctBlue (some ((q : ℝ) / 100))) b hb hb0 hb255
  refine ⟨rn, gn, bn,
    (jsHexString (jsRound (ctRed (some ((q : ℝ) / 100))))).data ++
      (jsHexString (jsRound (ctGreen (some ((q : ℝ) / 100))))).data ++
      (jsHexString (jsRound (ctBlue (some ((q : ℝ) / 100))))).data,
    ?_, hrn0, hrn1, ?_, hgn0, hgn1, ?_, hbn0, hbn1, ?_, ?_, ?_, ?_⟩
  · rw [jsDiv_num]
    exact hrn
  · rw [jsDiv_num]
    exact hgn
  · rw [jsDiv_num]
    exact hbn
  · rw [colorTemperatureToRGB_data, jsDiv_num]
  · have er : 1 ≤ (jsHexString (jsRound (ctRed (some ((q : ℝ) / 100))))).data.length :=
      hrl1
    simp only [List.length_append]
    omega
  · have er : (jsHexString (jsRound (ctRed (some ((q : ℝ) / 100))))).data.length ≤ 2 :=
      hrl2
    have eg : (jsHexString (jsRound (ctGreen (some ((q : ℝ) / 100))))).data.length ≤ 2 :=
      hgl2
    have eb : (jsHexString (jsRound (ctBlue (some ((q : ℝ) / 100))))).data.length ≤ 2 :=
      hbl2
    simp only [List.length_append]
    omega
  · simp only [List.all_append, hrhex, hghex, hbhex, Bool.and_self]

/-- C4 witness: the theorem applied at 2700 Kelvin. -/
theorem colorTemperatureToRGB_wellformed_witness :
    (1000 : ℚ) ≤ 2700 ∧ (2700 : ℚ) ≤ 40000 ∧
      ∃ (rn gn bn : ℤ) (ds : List Char),
        jsRound (ctRed (jsDiv (jsToNumber (JSVal.num 2700)) (some 100))) =
          some rn ∧
        0 ≤ rn ∧ rn ≤ 255 ∧
        jsRound (ctGreen (jsDiv (jsToNumber (JSVal.num 2700)) (some 100))) =
          some gn ∧
        0 ≤ gn ∧ gn ≤ 255 ∧
        jsRound (ctBlue (jsDiv (jsToNumber (JSVal.num 2700)) (some 100))) =
          some bn ∧
        0 ≤ bn ∧ bn ≤ 255 ∧
        (colorTemperatureToRGB (JSVal.num 2700)).data = '#' :: ds ∧
        1 ≤ ds.length ∧ ds.length ≤ 6 ∧ ds.all isLowerHexDigit = true :=
  ⟨by norm_num, by norm_num,
    colorTemperatureToRGB_wellformed 2700 (by norm_num) (by norm_num)⟩

/-- A freshly constructed html-format widget whose cache holds the given
color string, used to evaluate updateIcon on concrete colors. -/
def mkColorState (c : String) : WidgetState :=
  { propOn := none
    propColor := some (JSVal.str c)
    propColorTemp := none
    hasColorCapability := true
    hasColorTempCapability := false
    hasDom := true
    format := "html"
    labelText := ""
    background := ""
    onVisual := false
    iconFill := JSVal.str ("")
    brightClass := false }

set_option maxRecDepth 16000 in
/-- C5 counterexample: at the reachable icon color #aae216 (channels
170, 226, 22) the exact luminance 0.299 r + 0.587 g + 0.114 b is
exactly 186 — not above the threshold, so the claimed criterion calls
for the class to be absent — yet the program's double arithmetic
computes slightly more than 186 and updateIcon adds the bright-color
class. -/
theorem updateIcon_brightClass_counterexample :
    jsParseInt16 (jsSubstr ("#aae216") 1 2) = some 170 ∧
      jsParseInt16 (jsSubstr ("#aae216") 3 2) = some 226 ∧
      jsParseInt16 (jsSubstr ("#aae216") 5 2) = some 22 ∧
      (updateIcon (mkColorState ("#aae216"))).brightClass = true ∧
      (170 : ℚ) * (0.299 : ℚ) + (226 : ℚ) * (0.587 : ℚ) +
          (22 : ℚ) * (0.114 : ℚ) = 186 ∧
      ¬(186 < (170 : ℚ) * (0.299 : ℚ) + (226 : ℚ) * (0.587 : ℚ) +
          (22 : ℚ) * (0.114 : ℚ)) := by
  refine ⟨by decide, by decide, by decide, ?_, by norm_num, by norm_num⟩
  rw [updateIcon_of_str (mkColorState ("#aae216")) ("#aae216") rfl]
  show lumGt186 (jsParseInt16 (jsSubstr ("#aae216") 1 2))
    (jsParseInt16 (jsSubstr ("#aae216") 3 2))
    (jsParseInt16 (jsSubstr ("#aae216") 5 2)) = true
  decide

set_option maxRecDepth 16000 in
/-- C5 amended: after updateIcon the bright-color class is present
exactly when the program's IEEE-754 double evaluation of
r·0.299 + g·0.587 + b·0.114 on the parsed channels exceeds 186 (each
literal the nearest double, each operation rounding once); #ffffff
classifies as bright, #000000 and #ff0000 (exact luminance 76.245) do
not, and #aae216 — whose exact luminance is exactly 186 — is classified
bright because the double sum rounds to just above the threshold. -/
theorem updateIcon_brightClass_iff_double :
    (∀ (s : WidgetState) (c : String) (r g b : ℚ),
        getIconColor s = JSVal.str c →
        jsParseInt16 (jsSubstr c 1 2) = some r →
        jsParseInt16 (jsSubstr c 3 2) = some g →
        jsParseInt16 (jsSubstr c 5 2) = some b →
        ((updateIcon s).brightClass = true ↔
          fpGtInt (doubleLuminance r g b) 186 = true)) ∧
      (updateIcon (mkColorState ("#ffffff"))).brightClass = true ∧
      (updateIcon (mkColorState ("#000000"))).brightClass = false ∧
      (updateIcon (mkColorState ("#ff0000"))).brightClass = false ∧
      (updateIcon (mkColorState ("#aae216"))).brightClass = true := by
  refine ⟨?_, ?_, ?_, ?_, ?_⟩
  · intro s c r g b hc hr hg hb
    rw [updateIcon_of_str s c hc]
    simp only [lumGt186, hr, hg, hb]
  · rw [updateIcon_of_str (mkColorState ("#ffffff")) ("#ffffff") rfl]
    show lumGt186 (jsParseInt16 (jsSubstr ("#ffffff") 1 2))
      (jsParseInt16 (jsSubstr ("#ffffff") 3 2))
      (jsParseInt16 (jsSubstr ("#ffffff") 5 2)) = true
    decide
  · rw [updateIcon_of_str (mkColorState ("#000000")) ("#000000") rfl]
    show lumGt186 (jsParseInt16 (jsSubstr ("#000000") 1 2))
      (jsParseInt16 (jsSubstr ("#000000") 3 2))
      (jsParseInt16 (jsSubstr ("#000000") 5 2)) = false
    decide
  · rw [updateIcon_of_str (mkColorState ("#ff0000")) ("#ff0000") rfl]
    show lumGt186 (jsParseInt16 (jsSubstr ("#ff0000") 1 2))
      (jsParseInt16 (jsSubstr ("#ff0000") 3 2))
      (jsParseInt16 (jsSubstr ("#ff0000") 5 2)) = false
    decide
  · rw [updateIcon_of_str (mkColorState ("#aae216")) ("#aae216") rfl]
    show lumGt186 (jsParseInt16 (jsSubstr ("#aae216") 1 2))
      (jsParseInt16 (jsSubstr ("#aae216") 3 2))
      (jsParseInt16 (jsSubstr ("#aae216") 5 2)) = true
    decide

/-- C5 amended witness: the classification rule applied to the concrete
color #00ff00. -/
theorem updateIcon_brightClass_iff_double_witness :
    (updateIcon (mkColorState ("#00ff00"))).brightClass = true ↔
      fpGtInt (doubleLuminance 0 255 0) 186 = true :=
  updateIcon_brightClass_iff_double.1 (mkColorState ("#00ff00")) ("#00ff00")
    0 255 0 rfl (by decide) (by decide) (by decide)

/-- A widget registered with only the colorTemperature capability whose
cache nevertheless holds a spurious color key alongside the cached
temperature. -/
def c1State : WidgetState :=
  { propOn := none
    propColor := some (JSVal.str ("red"))
    propColorTemp := some (JSVal.num 2700)
    hasColorCapability := false
    hasColorTempCapability := true
    hasDom := true
    format := "html"
    labelText := ""
    background := ""
    onVisual := false
    iconFill := JSVal.str ("")
    brightClass := false }

/-- C1 counterexample: on a device registered with only the
colorTemperature capability, getIconColor returns a spurious color key
straight from the cache — the value is the cached color, not the
colorTemperatureToRGB derivation of the cached colorTemperature that the
claim requires (the source tests this.properties, never the capability
registration). -/
theorem getIconColor_spurious_color_counterexample :
    c1State.hasColorCapability = false ∧
      c1State.hasColorTempCapability = true ∧
      c1State.propColorTemp = some (JSVal.num 2700) ∧
      getIconColor c1State = JSVal.str ("red") ∧
      getIconColor c1State ≠ JSVal.str (colorTemperatureToRGB (JSVal.num 2700)) := by
  refine ⟨rfl, rfl, rfl, rfl, ?_⟩
  intro h
  have h2 : ("red" : String) = colorTemperatureToRGB (JSVal.num 2700) := by
    have h1 : JSVal.str ("red") = JSVal.str (colorTemperatureToRGB (JSVal.num 2700)) := h
    injection h1
  have h3 := congrArg String.data h2
  rw [colorTemperatureToRGB_data] at h3
  have h4 : ("red" : String).data = ['r', 'e', 'd'] := rfl
  rw [h4] at h3
  simp only [List.cons.injEq] at h3
  exact absurd h3.1 (by decide)

/-- C1 amended: getIconColor consults the property cache, not the
capability registration — a cached color key (even a spurious one on a
colorTemperature-only device) is returned directly, and only when no
color key is cached is the result derived from colorTemperatureToRGB of
the cached colorTemperature, with white as the final fallback. -/
theorem getIconColor_prefers_cached_color (s : WidgetState) :
    (∀ v, s.propColor = some v → getIconColor s = v) ∧
      (s.propColor = none → ∀ w, s.propColorTemp = some w →
        getIconColor s = JSVal.str (colorTemperatureToRGB w)) ∧
      (s.propColor = none → s.propColorTemp = none →
        getIconColor s = JSVal.str ("#ffffff")) := by
  refine ⟨?_, ?_, ?_⟩
  · intro v hv
    simp only [getIconColor, hv]
  · intro h w hw
    simp only [getIconColor, h, hw]
  · intro h hw
    simp only [getIconColor, h, hw]

/-- C1 amended witness: the cached-color branch applied to a concrete
state. -/
theorem getIconColor_prefers_cached_color_witness :
    getIconColor (mkColorState ("#112233")) = JSVal.str ("#112233") :=
  (getIconColor_prefers_cached_color (mkColorState ("#112233"))).1
    (JSVal.str ("#112233")) rfl

/-- A widget with a cached color, used to compare the background written
by updateOn against the display color getIconColor computes. -/
def c3State : WidgetState :=
  { propOn := none
    propColor := some (JSVal.str ("red"))
    propColorTemp := none
    hasColorCapability := true
    hasColorTempCapability := false
    hasDom := true
    format := "html"
    labelText := ""
    background := ""
    onVisual := false
    iconFill := JSVal.str ("")
    brightClass := false }

/-- C3 counterexample: for the truthy value true, updateOn writes the
constant background white, while getIconColor on the resulting state
computes the cached display color red — the background is not the
recomputed display color the claim describes. -/
theorem updateOn_background_counterexample :
    truthy (JSVal.bool true) = true ∧
      (updateOn c3State (JSVal.bool true)).background = "white" ∧
      getIconColor (updateOn c3State (JSVal.bool true)) = JSVal.str ("red") ∧
      JSVal.str ((updateOn c3State (JSVal.bool true)).background) ≠
        getIconColor (updateOn c3State (JSVal.bool true)) := by
  refine ⟨rfl, rfl, rfl, ?_⟩
  intro h
  have h1 : JSVal.str ("white") = JSVal.str ("red") := h
  have h2 : ("white" : String) = "red" := by injection h1
  exact absurd h2 (by decide)

/-- C3 amended: for every truthy value updateOn caches the value, writes
the label on, sets the background to the constant white (not to the
recomputed getIconColor value) and shows the on visual state; for falsy
non-null values it writes the label off, clears the background and shows
the off visual state; for null it only caches. -/
theorem updateOn_cases (s : WidgetState) (v : JSVal) :
    (truthy v = true →
      updateOn s v = { s with
        propOn := some v
        labelText := "on"
        background := "white"
        onVisual := true }) ∧
      (truthy v = false → v ≠ JSVal.null →
        updateOn s v = { s with
          propOn := some v
          labelText := "off"
          background := ""
          onVisual := false }) ∧
      (updateOn s JSVal.null = { s with propOn := some JSVal.null }) := by
  refine ⟨?_, ?_, ?_⟩
  · intro ht
    have hne : v ≠ JSVal.null := by
      intro he
      subst he
      exact absurd ht (by decide)
    simp [updateOn, hne, ht, detailUpdate, showOn]
  · intro ht hne
    simp [updateOn, hne, ht, detailUpdate, showOff]
  · simp [updateOn]

/-- C3 amended witness: the truthy branch applied at a concrete state
and value. -/
theorem updateOn_cases_witness :
    updateOn (mkColorState ("#112233")) (JSVal.bool true) =
      { mkColorState ("#112233") with
        propOn := some (JSVal.bool true)
        labelText := "on"
        background := "white"
        onVisual := true } :=
  (updateOn_cases (mkColorState ("#112233")) (JSVal.bool true)).1 rfl

/-- C8: updateColor is a complete no-op on every falsy value — the
cache, the icon color and the brightness class are all untouched — while
every truthy value is cached and, when the DOM elements exist, the icon
fill and brightness class are recomputed by updateIcon on the new cache. -/
theorem updateColor_falsy_noop (s : WidgetState) (v : JSVal) :
    (truthy v = false → updateColor s v = s) ∧
      (truthy v = true → (updateColor s v).propColor = some v) ∧
      (truthy v = true → s.hasDom = true →
        updateColor s v = updateIcon { s with propColor := some v }) := by
  refine ⟨?_, ?_, ?_⟩
  · intro h
    simp [updateColor, h]
  · intro h
    by_cases hd : s.hasDom = true
    · simp only [updateColor, h, hd, detailUpdate]
      simp only [Bool.true_eq_false, if_false, ite_self]
      exact ((updateIcon_preserves_props _).2.1).trans rfl
    · simp [updateColor, h, hd, detailUpdate]
  · intro h hd
    simp [updateColor, h, hd, detailUpdate]

/-- C8 witness: a truthy color string cached and recomputed on a
concrete widget. -/
theorem updateColor_falsy_noop_witness :
    truthy (JSVal.str ("#112233")) = true ∧
      (mkColorState ("#ffffff")).hasDom = true ∧
      updateColor (mkColorState ("#ffffff")) (JSVal.str ("#112233")) =
        updateIcon { mkColorState ("#ffffff") with
          propColor := some (JSVal.str ("#112233")) } :=
  ⟨by decide, rfl,
    (updateColor_falsy_noop (mkColorState ("#ffffff"))
      (JSVal.str ("#112233"))).2.2 (by decide) rfl⟩

/-- C10: updateColorTemperature has no falsiness or validity guard: for
every value — 0 and non-numeric strings included — the parsed value
unconditionally overwrites the cached colorTemperature, and when the DOM
elements exist the icon is recomputed; 0 is cached as 0 and a
non-numeric string parses to NaN and is cached as NaN. -/
theorem updateColorTemperature_unguarded (s : WidgetState) (v : JSVal) :
    (updateColorTemperature s v).propColorTemp = some (parseIntIfString v) ∧
      (s.hasDom = true →
        updateColorTemperature s v =
          updateIcon { s with propColorTemp := some (parseIntIfString v) }) ∧
      parseIntIfString (JSVal.num 0) = JSVal.num 0 ∧
      parseIntIfString (JSVal.str ("abc")) = JSVal.nan := by
  refine ⟨?_, ?_, by decide, by decide⟩
  · by_cases hd : s.hasDom = true
    · simp only [updateColorTemperature, hd, detailUpdate]
      simp only [Bool.true_eq_false, if_false, ite_self]
      exact ((updateIcon_preserves_props _).2.2.1).trans rfl
    · simp [updateColorTemperature, hd, detailUpdate]
  · intro hd
    simp [updateColorTemperature, hd, detailUpdate]

/-- C10 witness: a non-numeric string overwriting the cache with NaN and
triggering the icon recomputation on a concrete widget. -/
theorem updateColorTemperature_unguarded_witness :
    (mkColorState ("#ffffff")).hasDom = true ∧
      updateColorTemperature (mkColorState ("#ffffff")) (JSVal.str ("abc")) =
        updateIcon { mkColorState ("#ffffff") with
          propColorTemp := some (parseIntIfString (JSVal.str ("abc"))) } :=
  ⟨rfl,
    (updateColorTemperature_unguarded (mkColorState ("#ffffff"))
      (JSVal.str ("abc"))).2.1 rfl⟩

/-- C6: a non-200 response or a transport failure leaves the widget
state unchanged and logs exactly one error, the handlers being total so
no exception reaches the caller; the cache is touched only on a 200
response, and then only through the value echoed by the server — the
response handling does not depend on the requested color at all. -/
theorem setColor_non200_unchanged (s : WidgetState) (c c2 : JSVal)
    (body : JsonBody) (status : ℕ) (msg : String) (o : FetchOutcome) :
    (status ≠ 200 →
      (setColor s c (FetchOutcome.response status body)).2 =
        (s, ["Error trying to set color: Error: Status " ++ toString status ++
          " trying to set color"])) ∧
      ((setColor s c (FetchOutcome.failure msg)).2 =
        (s, ["Error trying to set color: " ++ msg])) ∧
      ((setColor s c (FetchOutcome.response 200 body)).2 =
        (updateColor s (jsonGet body ("color")), [])) ∧
      (setColor s c o).2 = (setColor s c2 o).2 := by
  refine ⟨?_, rfl, ?_, rfl⟩
  · intro h
    simp [setColor, h]
  · simp [setColor]

/-- C6 witness: a 500 response applied to a concrete widget, color and
empty body. -/
theorem setColor_non200_unchanged_witness :
    (500 : ℕ) ≠ 200 ∧
      (setColor (mkColorState ("#ffffff")) (JSVal.str ("#112233"))
          (FetchOutcome.response 500 [])).2 =
        (mkColorState ("#ffffff"),
          ["Error trying to set color: Error: Status " ++ toString (500 : ℕ) ++
            " trying to set color"]) :=
  ⟨by decide,
    (setColor_non200_unchanged (mkColorState ("#ffffff"))
      (JSVal.str ("#112233")) (JSVal.str ("#112233")) [] 500 ("")
      (FetchOutcome.failure (""))).1 (by decide)⟩

/-- C9: setColorTemperature applied to the string 2700 parses it as a
base-10 integer before building the request, so the outbound payload
carries the number 2700 under the colorTemperature key, not the string. -/
theorem setColorTemperature_string_payload (s : WidgetState) (o : FetchOutcome) :
    (setColorTemperature s (JSVal.str ("2700")) o).1 =
      [("colorTemperature", JSVal.num 2700)] := by
  show [("colorTemperature", parseIntIfString (JSVal.str ("2700")))] =
    [("colorTemperature", JSVal.num 2700)]
  decide
